import Mathlib

/-!
Verification of the pywbem repository excerpt (docs/notebooks/datamodel.ipynb,
.travis.yml, packaging/debian/rules) against its natural-language specification.

The excerpt contains no executable client code, so the CIM data-model objects
(CIMInstance, CIMInstanceName) are modelled from the spec's words, while the
CI control file and the Debian rules file are embedded directly from source.
-/

namespace PyWBEM

/-- A CIM typed value, standing in for the CIM data types the notebook refers
to (strings, booleans, integers). -/
inductive CIMValue where
  | vStr (s : String)
  | vBool (b : Bool)
  | vInt (n : Int)
deriving DecidableEq, Repr

/-- Modelled from the spec: the `pywbem.CIMInstance` implementation is not in
the excerpt.  Per the spec, an instance is "a named collection of
property-name-to-typed-value mappings, with case-insensitive property-name
lookup".  Properties are kept as an association list of name/value pairs. -/
structure CIMInstance where
  classname : String
  properties : List (String × CIMValue)
deriving DecidableEq, Repr

/-- Lower-casing of a CIM element name, character by character. -/
def lowerName (s : String) : String :=
  String.mk (s.data.map Char.toLower)

/-- Case-insensitive equality of CIM element names, as required by the CIM
standards according to the notebook. -/
def nameEq (a b : String) : Bool :=
  lowerName a == lowerName b

/-- Modelled from the spec: case-insensitive lookup in a property list. -/
def getPairs (n : String) : List (String × CIMValue) → Option CIMValue
  | [] => none
  | (m, w) :: rest => if nameEq m n then some w else getPairs n rest

/-- Modelled from the spec: assignment into a property list.  An existing
property whose name differs only in case is overwritten; otherwise the new
pair is appended at the end. -/
def setPairs (n : String) (v : CIMValue) : List (String × CIMValue) → List (String × CIMValue)
  | [] => [(n, v)]
  | (m, w) :: rest =>
    if nameEq m n then (n, v) :: rest else (m, w) :: setPairs n v rest

/-- Dictionary-style read access, `inst[n]` in the notebook. -/
def CIMInstance.getProp (inst : CIMInstance) (n : String) : Option CIMValue :=
  getPairs n inst.properties

/-- Dictionary-style write access, `inst[n] = v` in the notebook. -/
def CIMInstance.setProp (inst : CIMInstance) (n : String) (v : CIMValue) : CIMInstance :=
  ⟨inst.classname, setPairs n v inst.properties⟩

/-- Modelled from the spec: the `pywbem.CIMInstanceName` implementation is not
in the excerpt.  Per the spec, an instance name "may specify the location of
the WBEM server, the CIM namespace within the server, the CIM class within the
namespace, and identifies the CIM instance within the class by means of its
key property values", called key bindings. -/
structure CIMInstanceName where
  host : Option String
  namespacePath : Option String
  classname : String
  keybindings : List (String × CIMValue)
deriving DecidableEq, Repr

/-- One direction of key-binding containment: every key binding of `kb1` is
present in `kb2` with the same value, under case-insensitive key lookup. -/
def kbSub (kb1 kb2 : List (String × CIMValue)) : Bool :=
  kb1.all fun p => getPairs p.1 kb2 == some p.2

/-- Two instance names carry the same identity when they agree on namespace,
on class name (case-insensitively), and on the set of key-binding values. -/
def sameIdentity (n1 n2 : CIMInstanceName) : Bool :=
  n1.namespacePath == n2.namespacePath &&
    nameEq n1.classname n2.classname &&
    (kbSub n1.keybindings n2.keybindings && kbSub n2.keybindings n1.keybindings)

/-- A WBEM server-side store of instances, each addressed by its instance
name. -/
def Repository := List (CIMInstanceName × CIMInstance)

/-- Modelled from the spec: the server-side instance store is not in the
excerpt.  Per the spec a set of key bindings identifies "one instance within
its class", so creating an instance whose identity is already present leaves
the store unchanged, and deletion removes the named instance. -/
inductive RepOp where
  | createInstance (nm : CIMInstanceName) (inst : CIMInstance)
  | deleteInstance (nm : CIMInstanceName)

/-- Effect of one repository operation. -/
def applyOp (rep : Repository) : RepOp → Repository
  | .createInstance nm inst =>
    if rep.any (fun e => sameIdentity e.1 nm) then rep else (nm, inst) :: rep
  | .deleteInstance nm => rep.filter fun e => !sameIdentity e.1 nm

/-- The repository reached from the empty store by a sequence of operations. -/
def runOps (ops : List RepOp) : Repository :=
  ops.foldl applyOp []

/-- No two distinct entries of the store share the same identity. -/
def UniqueIdentities (rep : Repository) : Prop :=
  rep.Pairwise fun e1 e2 => sameIdentity e1.1 e2.1 = false

end PyWBEM

namespace Travis

/-- The interpreter-version build matrix declared under `python:` in
`.travis.yml`. -/
def python_versions : List String :=
  ["2.6", "2.7", "3.4", "3.5", "3.6"]

/-- The `install:` command sequence of `.travis.yml` ("commands to install
dependencies"). -/
def install : List String :=
  ["python -c \"import platform; print(\x27Demonstration of incorrect distro returned by platform.linux_distribution():\x27); print(repr(platform.linux_distribution()))\"",
   "python -c \"import pip, os; print(\x27Site-packages directory of system Python:\x27); print(os.path.dirname(os.path.dirname(pip.__file__)))\"",
   "pip list",
   "pip install --upgrade pip",
   "python uninstall_pbr_on_py26.py",
   "make clobber",
   "pip list",
   "make develop",
   "pip install python-coveralls",
   "pip list"]

/-- The `script:` command sequence of `.travis.yml` ("commands to run builds &
tests"). -/
def script : List String :=
  ["make check", "make build", "make builddoc", "make test"]

/-- A shell command line as it appears in a Travis command sequence: either a
plain command, or a conditional of the shape
`if [[ $var == pat ]]; then cmd; fi`. -/
inductive ShCmd where
  | plain (cmd : String)
  | condCmd (var : String) (pat : String) (cmd : String)
deriving DecidableEq, Repr

/-- The `after_success:` sequence of `.travis.yml`:
`if [[ $TRAVIS_PYTHON_VERSION == 2.7 ]]; then coveralls; fi`. -/
def after_success : List ShCmd :=
  [.condCmd "TRAVIS_PYTHON_VERSION" "2.7" "coveralls"]

/-- The command a sequence entry lists (for a conditional, the guarded
command). -/
def listedCmd : ShCmd → String
  | .plain c => c
  | .condCmd _ _ c => c

/-- Travis sets `TRAVIS_PYTHON_VERSION` to the build's interpreter version;
no other variable is consulted by the file. -/
def envOf (v : String) (var : String) : String :=
  if var == "TRAVIS_PYTHON_VERSION" then v else ""

/-- Commands a shell line actually executes for a build whose version is
`v`. -/
def execShCmd (v : String) : ShCmd → List String
  | .plain c => [c]
  | .condCmd var pat c => if envOf v var == pat then [c] else []

/-- Commands the `after_success` phase executes for version `v`. -/
def runAfterSuccess (v : String) : List String :=
  (after_success.map (execShCmd v)).flatten

/-- The whole CI pipeline for a build of version `v`: the `install` phase,
then the `script` phase, then the `after_success` phase, each phase and each
command within a phase running sequentially. -/
def pipeline (v : String) : List String :=
  install ++ script ++ runAfterSuccess v

/-- Modelled from the spec: the Travis runner itself is not part of the
repository.  Per the spec, "a failing command aborts the remaining sequence":
commands run in order until the first failure. -/
def runSeq (fails : String → Bool) : List String → Bool × List String
  | [] => (true, [])
  | c :: rest =>
    if fails c then (false, [c])
    else
      let r := runSeq fails rest
      (r.1, c :: r.2)

end Travis

namespace Debian

/-- The command lines appearing in the recipes of `packaging/debian/rules`,
one constructor per distinct line. -/
inductive DCmd where
  | dh_testdir
  | dh_testroot
  | python_setup_build
  | touch_build_stamp
  | rm_build_stamp_build
  | find_rm_pyc
  | dh_clean
  | dh_clean_k
  | dh_installdirs
  | python_setup_install_root
  | dh_installdocs_i
  | dh_installchangelogs_i
  | dh_compress_i
  | dh_fixperms_i
  | dh_pycentral_i
  | dh_installdeb_i
  | dh_gencontrol_i
  | dh_md5sums_i
  | dh_builddeb_i
  | dh_installdocs_a
  | dh_installchangelogs_a
  | dh_strip_a
  | dh_compress_a
  | dh_fixperms_a
  | dh_pycentral_a
  | dh_installdeb_a
  | dh_shlibdeps_a
  | dh_gencontrol_a
  | dh_md5sums_a
  | dh_builddeb_a
deriving DecidableEq, Repr

/-- The shell text of each recipe line, as written in the rules file. -/
def DCmd.text : DCmd → String
  | .dh_testdir => "dh_testdir"
  | .dh_testroot => "dh_testroot"
  | .python_setup_build => "python setup.py build"
  | .touch_build_stamp => "touch build-stamp"
  | .rm_build_stamp_build => "rm -rf build-stamp build"
  | .find_rm_pyc => "find . -name \x27*.py[co]\x27 | xargs rm -f"
  | .dh_clean => "dh_clean"
  | .dh_clean_k => "dh_clean -k"
  | .dh_installdirs => "dh_installdirs"
  | .python_setup_install_root =>
    "python setup.py install --root=$(CURDIR)/debian/python-pywbem"
  | .dh_installdocs_i => "dh_installdocs -i README"
  | .dh_installchangelogs_i => "dh_installchangelogs -i"
  | .dh_compress_i => "dh_compress -i"
  | .dh_fixperms_i => "dh_fixperms -i"
  | .dh_pycentral_i => "dh_pycentral -i"
  | .dh_installdeb_i => "dh_installdeb -i"
  | .dh_gencontrol_i => "dh_gencontrol -i"
  | .dh_md5sums_i => "dh_md5sums -i"
  | .dh_builddeb_i => "dh_builddeb -i"
  | .dh_installdocs_a => "dh_installdocs -a -A README"
  | .dh_installchangelogs_a => "dh_installchangelogs -a"
  | .dh_strip_a => "dh_strip -a"
  | .dh_compress_a => "dh_compress -a"
  | .dh_fixperms_a => "dh_fixperms -a"
  | .dh_pycentral_a => "dh_pycentral -a"
  | .dh_installdeb_a => "dh_installdeb -a"
  | .dh_shlibdeps_a => "dh_shlibdeps -a"
  | .dh_gencontrol_a => "dh_gencontrol -a"
  | .dh_md5sums_a => "dh_md5sums -a"
  | .dh_builddeb_a => "dh_builddeb -a"

/-- The package-assembly commands (`dh_builddeb`). -/
def isBuilddeb : DCmd → Bool
  | .dh_builddeb_i => true
  | .dh_builddeb_a => true
  | _ => false

/-- The make targets defined in `packaging/debian/rules`. -/
inductive Target where
  | build
  | build_stamp
  | clean
  | install
  | binary_indep
  | binary_arch
  | binary
deriving DecidableEq, Repr

/-- Every target of the rules file. -/
def allTargets : List Target :=
  [.build, .build_stamp, .clean, .install, .binary_indep, .binary_arch, .binary]

/-- Prerequisites of each target, as written in the rules file. -/
def prereqs : Target → List Target
  | .build => [.build_stamp]
  | .build_stamp => []
  | .clean => []
  | .install => [.build]
  | .binary_indep => [.build, .install]
  | .binary_arch => [.build, .install]
  | .binary => [.binary_indep, .binary_arch]

/-- Recipe of each target: the command lines in order, each paired with the
make ignore-errors flag (a leading `-` on the line).  Only the bytecode
removal pipeline in `clean` carries that flag. -/
def recipe : Target → List (DCmd × Bool)
  | .build => []
  | .build_stamp =>
    [(.dh_testdir, false), (.python_setup_build, false),
     (.touch_build_stamp, false), (.touch_build_stamp, false)]
  | .clean =>
    [(.dh_testdir, false), (.dh_testroot, false),
     (.rm_build_stamp_build, false), (.find_rm_pyc, true), (.dh_clean, false)]
  | .install =>
    [(.dh_testdir, false), (.dh_testroot, false), (.dh_clean_k, false),
     (.dh_installdirs, false), (.python_setup_install_root, false)]
  | .binary_indep =>
    [(.dh_testdir, false), (.dh_testroot, false), (.dh_installdocs_i, false),
     (.dh_installchangelogs_i, false), (.dh_compress_i, false),
     (.dh_fixperms_i, false), (.dh_pycentral_i, false),
     (.dh_installdeb_i, false), (.dh_gencontrol_i, false),
     (.dh_md5sums_i, false), (.dh_builddeb_i, false)]
  | .binary_arch =>
    [(.dh_testdir, false), (.dh_testroot, false), (.dh_installdocs_a, false),
     (.dh_installchangelogs_a, false), (.dh_strip_a, false),
     (.dh_compress_a, false), (.dh_fixperms_a, false), (.dh_pycentral_a, false),
     (.dh_installdeb_a, false), (.dh_shlibdeps_a, false),
     (.dh_gencontrol_a, false), (.dh_md5sums_a, false), (.dh_builddeb_a, false)]
  | .binary => []

/-- Execution environment of the rules file: whether the current directory is
a proper debianized source tree (`dh_testdir` succeeds), whether the required
privileges are present (`dh_testroot` succeeds), and whether the bytecode
removal pipeline succeeds. -/
structure Env where
  rightDir : Bool
  rootPriv : Bool
  findOk : Bool
deriving DecidableEq, Fintype, Repr

/-- Observable state of the working tree: the `build-stamp` file, the
`build` directory, the staged tree under `debian/python-pywbem`, and stray
`.pyc`/`.pyo` files. -/
structure FS where
  buildStamp : Bool
  buildDir : Bool
  staged : Bool
  pyc : Bool
deriving DecidableEq, Fintype, Repr

/-- Whether a command succeeds in environment `env`. -/
def cmdOk (env : Env) : DCmd → Bool
  | .dh_testdir => env.rightDir
  | .dh_testroot => env.rootPriv
  | .find_rm_pyc => env.findOk
  | _ => true

/-- Effect of a successfully executed command on the working tree. -/
def applyCmd : DCmd → FS → FS
  | .python_setup_build, fs => ⟨fs.buildStamp, true, fs.staged, fs.pyc⟩
  | .touch_build_stamp, fs => ⟨true, fs.buildDir, fs.staged, fs.pyc⟩
  | .rm_build_stamp_build, fs => ⟨false, false, fs.staged, fs.pyc⟩
  | .find_rm_pyc, fs => ⟨fs.buildStamp, fs.buildDir, fs.staged, false⟩
  | .dh_clean, fs => ⟨fs.buildStamp, fs.buildDir, false, fs.pyc⟩
  | .dh_clean_k, fs => ⟨fs.buildStamp, fs.buildDir, false, fs.pyc⟩
  | .python_setup_install_root, fs => ⟨fs.buildStamp, fs.buildDir, true, fs.pyc⟩
  | _, fs => fs

/-- Result of running a recipe: overall success, resulting tree, and the
commands actually executed, in order. -/
structure RunRes where
  ok : Bool
  fs : FS
  tr : List DCmd
deriving DecidableEq, Repr

/-- Make's recipe execution: commands run in order; a failing command aborts
the recipe unless its line carries the `-` ignore-errors flag, in which case
execution continues (and the failed command leaves the tree unchanged). -/
def runRecipe (env : Env) : FS → List (DCmd × Bool) → RunRes
  | fs, [] => ⟨true, fs, []⟩
  | fs, (c, ign) :: rest =>
    if cmdOk env c then
      let r := runRecipe env (applyCmd c fs) rest
      ⟨r.ok, r.fs, c :: r.tr⟩
    else if ign then
      let r := runRecipe env fs rest
      ⟨r.ok, r.fs, c :: r.tr⟩
    else ⟨false, fs, [c]⟩

/-- Whether make considers the target out of date.  `build-stamp` is the only
non-`.PHONY` target; it has no prerequisites, so it is remade exactly when
the `build-stamp` file is absent.  All `.PHONY` targets are always remade. -/
def needsRun (fs : FS) : Target → Bool
  | .build_stamp => !fs.buildStamp
  | _ => true

/-- Result of a make invocation: success, resulting tree, targets already
made, and the executed commands in order. -/
structure MakeRes where
  ok : Bool
  fs : FS
  done : List Target
  tr : List DCmd
deriving DecidableEq, Repr

/-- Make's goal processing: each target is made at most once; its
prerequisites are made before its own recipe runs; a failing recipe aborts
the whole invocation.  `fuel` bounds the recursion depth and is never
exhausted on this finite acyclic dependency graph. -/
def makeGo : Nat → Env → FS → List Target → List Target → MakeRes
  | _, _, fs, done, [] => ⟨true, fs, done, []⟩
  | 0, _, fs, done, _ => ⟨false, fs, done, []⟩
  | Nat.succ f, env, fs, done, t :: rest =>
    if done.contains t then makeGo f env fs done rest
    else
      let rp := makeGo f env fs done (prereqs t)
      if rp.ok then
        let done2 := t :: rp.done
        if needsRun rp.fs t then
          let rr := runRecipe env rp.fs (recipe t)
          if rr.ok then
            let rs := makeGo f env rr.fs done2 rest
            ⟨rs.ok, rs.fs, rs.done, rp.tr ++ rr.tr ++ rs.tr⟩
          else ⟨false, rr.fs, done2, rp.tr ++ rr.tr⟩
        else
          let rs := makeGo f env rp.fs done2 rest
          ⟨rs.ok, rs.fs, rs.done, rp.tr ++ rs.tr⟩
      else rp

/-- Invoking `make t` in environment `env` on a tree in state `fs`. -/
def make (env : Env) (fs : FS) (t : Target) : MakeRes :=
  makeGo 32 env fs [] [t]

/-- In a trace, some command satisfying `a` occurs strictly before every
command satisfying `b` (vacuously true when no `b`-command occurs). -/
def occursBefore (a b : DCmd → Bool) : List DCmd → Bool
  | [] => true
  | c :: tr => if b c then false else if a c then true else occursBefore a b tr

end Debian

/-! Helper lemmas. -/

namespace PyWBEM

theorem nameEq_symm (a b : String) : nameEq a b = nameEq b a := by
  simp [nameEq, BEq.comm]

theorem sameIdentity_symm (n1 n2 : CIMInstanceName) :
    sameIdentity n1 n2 = sameIdentity n2 n1 := by
  simp only [sameIdentity]
  rw [nameEq_symm]
  cases h1 : n1.namespacePath == n2.namespacePath <;>
    cases h2 : n2.namespacePath == n1.namespacePath <;>
    simp_all [BEq.comm, Bool.and_comm]

theorem uniqueIdentities_applyOp (rep : Repository) (op : RepOp)
    (h : UniqueIdentities rep) : UniqueIdentities (applyOp rep op) := by
  cases op with
  | createInstance nm inst =>
    simp only [applyOp]
    split
    · exact h
    · rename_i hno
      constructor
      · intro e he
        have : ¬ sameIdentity e.1 nm = true := by
          intro hc
          exact hno (List.any_eq_true.mpr ⟨e, he, hc⟩)
        rw [sameIdentity_symm]
        exact Bool.eq_false_iff.mpr (by simpa using this)
      · exact h
  | deleteInstance nm =>
    exact List.Pairwise.sublist (List.filter_sublist rep) h

theorem uniqueIdentities_foldl (ops : List RepOp) :
    ∀ rep, UniqueIdentities rep → UniqueIdentities (ops.foldl applyOp rep) := by
  induction ops with
  | nil => intro rep h; exact h
  | cons op rest ih =>
    intro rep h
    exact ih (applyOp rep op) (uniqueIdentities_applyOp rep op h)

theorem getPairs_setPairs (props : List (String × CIMValue)) (n n' : String)
    (v : CIMValue) (h : lowerName n = lowerName n') :
    getPairs n' (setPairs n v props) = some v := by
  induction props with
  | nil => simp [setPairs, getPairs, nameEq, h]
  | cons p rest ih =>
    obtain ⟨m, w⟩ := p
    by_cases hm : nameEq m n = true
    · have hmn : lowerName m = lowerName n' := by
        simp only [nameEq, beq_iff_eq] at hm
        rw [hm, h]
      simp [setPairs, nameEq, hmn, getPairs, h]
    · have hm' : nameEq m n' = false := by
        simp only [nameEq, beq_iff_eq] at hm ⊢
        simpa [h] using hm
      simp [setPairs, hm, getPairs, hm', ih]

end PyWBEM

/-! Claim theorems. -/

/-- C1: For every CIMInstance, property-name lookup is case-insensitive
regardless of the case used at assignment: assigning a property value under
one spelling of the name and then reading it under any spelling differing
only in letter case returns the assigned value. -/
theorem C1_case_insensitive_lookup (inst : PyWBEM.CIMInstance)
    (n n' : String) (v : PyWBEM.CIMValue)
    (h : PyWBEM.lowerName n = PyWBEM.lowerName n') :
    (inst.setProp n v).getProp n' = some v :=
  PyWBEM.getPairs_setPairs inst.properties n n' v h

/-- C1 witness: the notebook scenario, assigning `Firstname` and reading
`firstname` on a `CIM_Person` instance. -/
theorem C1_witness :
    PyWBEM.lowerName "Firstname" = PyWBEM.lowerName "firstname" ∧
      ((PyWBEM.CIMInstance.mk "CIM_Person" []).setProp "Firstname"
        (.vStr "Tim")).getProp "firstname" = some (.vStr "Tim") :=
  ⟨by decide,
    C1_case_insensitive_lookup (PyWBEM.CIMInstance.mk "CIM_Person" [])
      "Firstname" "firstname" (.vStr "Tim") (by decide)⟩

/-- C2: For every class within a namespace, an instance name's key bindings
uniquely identify one instance: in every repository reachable by create and
delete operations, no two distinct instances of the same class in the same
namespace share the same set of key-binding values. -/
theorem C2_keybindings_identify_uniquely (ops : List PyWBEM.RepOp) :
    PyWBEM.UniqueIdentities (PyWBEM.runOps ops) :=
  PyWBEM.uniqueIdentities_foldl ops [] List.Pairwise.nil

/-- C3: The coveralls command in after_success runs if and only if the
build's Python version equals 2.7, and for every other version of the build
matrix no coverage is reported. -/
theorem C3_coveralls_only_on_27 :
    (∀ v : String, "coveralls" ∈ Travis.runAfterSuccess v ↔ v = "2.7") ∧
      ∀ v ∈ Travis.python_versions, v ≠ "2.7" → Travis.runAfterSuccess v = [] := by
  constructor
  · intro v
    by_cases h : v = "2.7" <;>
      simp [Travis.runAfterSuccess, Travis.after_success, Travis.execShCmd,
        Travis.envOf, h]
  · intro v _ hne
    simp [Travis.runAfterSuccess, Travis.after_success, Travis.execShCmd,
      Travis.envOf, hne]

/-- C3 witness: coveralls runs on the 2.7 build and not on the 3.4 build. -/
theorem C3_witness :
    ("coveralls" ∈ Travis.runAfterSuccess "2.7" ↔ "2.7" = "2.7") ∧
      "3.4" ∈ Travis.python_versions ∧ "3.4" ≠ "2.7" ∧
      Travis.runAfterSuccess "3.4" = [] :=
  ⟨C3_coveralls_only_on_27.1 "2.7", by decide, by decide,
    C3_coveralls_only_on_27.2 "3.4" (by decide) (by decide)⟩

/-- C4: Whenever the packaging script's binary, binary-indep, or binary-arch
target is made, the install target runs first and places the installed files
under the staging root directory debian/python-pywbem before any
package-assembly command (dh_builddeb) executes: in every execution trace,
each command of the install recipe (including the staged
`python setup.py install --root=$(CURDIR)/debian/python-pywbem`) occurs
before every dh_builddeb command. -/
theorem C4_install_stages_before_builddeb :
    ∀ t ∈ [Debian.Target.binary, Debian.Target.binary_indep,
        Debian.Target.binary_arch],
      ∀ env : Debian.Env, ∀ fs : Debian.FS,
        ((Debian.recipe Debian.Target.install).map Prod.fst).all
          (fun c => Debian.occursBefore (fun d => d == c) Debian.isBuilddeb
            (Debian.make env fs t).tr) = true := by
  decide

/-- C4 witness: making binary-indep on a fresh tree with all tools
succeeding. -/
theorem C4_witness :
    Debian.Target.binary_indep ∈ [Debian.Target.binary,
      Debian.Target.binary_indep, Debian.Target.binary_arch] ∧
      ((Debian.recipe Debian.Target.install).map Prod.fst).all
        (fun c => Debian.occursBefore (fun d => d == c) Debian.isBuilddeb
          (Debian.make ⟨true, true, true⟩ ⟨false, false, false, false⟩
            Debian.Target.binary_indep).tr) = true :=
  ⟨by decide,
    C4_install_stages_before_builddeb Debian.Target.binary_indep (by decide)
      ⟨true, true, true⟩ ⟨false, false, false, false⟩⟩

set_option maxRecDepth 4096 in
/-- C7: The CI pipeline executes its phases in the order: install
dependencies, then run checks, then build, then run tests, then report
coverage.  In the sequential pipeline of the 2.7 build, every dependency
installation command precedes `make check`, which precedes `make build`,
which precedes `make test`, which precedes `coveralls`. -/
theorem C7_pipeline_phase_order :
    (∀ c ∈ Travis.install,
      (Travis.pipeline "2.7").indexOf c <
        (Travis.pipeline "2.7").indexOf "make check") ∧
      (Travis.pipeline "2.7").indexOf "make check" <
        (Travis.pipeline "2.7").indexOf "make build" ∧
      (Travis.pipeline "2.7").indexOf "make build" <
        (Travis.pipeline "2.7").indexOf "make test" ∧
      (Travis.pipeline "2.7").indexOf "make test" <
        (Travis.pipeline "2.7").indexOf "coveralls" := by
  decide

set_option maxRecDepth 4096 in
/-- C7 witness: the dependency-installation command `make develop` precedes
`make check` in the 2.7 pipeline. -/
theorem C7_witness :
    "make develop" ∈ Travis.install ∧
      (Travis.pipeline "2.7").indexOf "make develop" <
        (Travis.pipeline "2.7").indexOf "make check" :=
  ⟨by decide, C7_pipeline_phase_order.1 "make develop" (by decide)⟩

/-- C8: The packaging script's build target is idempotent: a successful
invocation of build leaves the build-stamp file in place, and whenever the
build-stamp file is present, invoking build executes no commands and leaves
the tree unchanged. -/
theorem C8_build_idempotent :
    ∀ env : Debian.Env, ∀ fs : Debian.FS,
      ((Debian.make env fs Debian.Target.build).ok = true →
        (Debian.make env fs Debian.Target.build).fs.buildStamp = true) ∧
      (fs.buildStamp = true →
        (Debian.make env fs Debian.Target.build).ok = true ∧
          (Debian.make env fs Debian.Target.build).fs = fs ∧
          (Debian.make env fs Debian.Target.build).tr = []) := by
  decide

/-- C8 witness: the tree produced by a first successful build (stamp and
build directory present) makes a second build a no-op. -/
theorem C8_witness :
    (Debian.FS.mk true true false false).buildStamp = true ∧
      (Debian.make ⟨true, true, true⟩ (Debian.FS.mk true true false false)
          Debian.Target.build).ok = true ∧
        (Debian.make ⟨true, true, true⟩ (Debian.FS.mk true true false false)
            Debian.Target.build).fs = Debian.FS.mk true true false false ∧
        (Debian.make ⟨true, true, true⟩ (Debian.FS.mk true true false false)
            Debian.Target.build).tr = [] :=
  ⟨by decide,
    (C8_build_idempotent ⟨true, true, true⟩
      (Debian.FS.mk true true false false)).2 (by decide)⟩

/-- C9: The clean target treats failure of the bytecode-removal pipeline as
non-fatal: the find command carries the `-` ignore-errors flag, and in an
environment where it fails, clean still executes dh_clean and completes
successfully. -/
theorem C9_clean_ignores_find_failure :
    ∀ fs : Debian.FS,
      Debian.cmdOk ⟨true, true, false⟩ Debian.DCmd.find_rm_pyc = false ∧
        (Debian.DCmd.find_rm_pyc, true) ∈ Debian.recipe Debian.Target.clean ∧
        (Debian.make ⟨true, true, false⟩ fs Debian.Target.clean).ok = true ∧
        (Debian.make ⟨true, true, false⟩ fs Debian.Target.clean).tr =
          [.dh_testdir, .dh_testroot, .rm_build_stamp_build, .find_rm_pyc,
            .dh_clean] := by
  decide

/-- C10: Every state-changing target (build-stamp, clean, install,
binary-indep, binary-arch) runs dh_testdir as the first command of its recipe
(with dh_testroot as the second command of every recipe that acts with
privileges), and when invoked from the wrong directory the target fails
before modifying any file: the tree is unchanged, and on a fresh tree the
only executed command is the failing dh_testdir. -/
theorem C10_testdir_guards_targets :
    (∀ t ∈ [Debian.Target.build_stamp, Debian.Target.clean,
        Debian.Target.install, Debian.Target.binary_indep,
        Debian.Target.binary_arch],
      (Debian.recipe t).head? = some (Debian.DCmd.dh_testdir, false)) ∧
      (∀ t ∈ [Debian.Target.clean, Debian.Target.install,
          Debian.Target.binary_indep, Debian.Target.binary_arch],
        (Debian.recipe t)[1]? = some (Debian.DCmd.dh_testroot, false)) ∧
      ∀ t ∈ [Debian.Target.build_stamp, Debian.Target.clean,
          Debian.Target.install, Debian.Target.binary_indep,
          Debian.Target.binary_arch],
        ∀ env : Debian.Env, ∀ fs : Debian.FS,
          env.rightDir = false →
            (Debian.make env fs t).fs = fs ∧
              (fs.buildStamp = false →
                (Debian.make env fs t).ok = false ∧
                  (Debian.make env fs t).tr = [Debian.DCmd.dh_testdir]) := by
  decide

/-- C10 witness: invoking install from a wrong directory on a fresh tree
fails at dh_testdir and changes nothing. -/
theorem C10_witness :
    Debian.Target.install ∈ [Debian.Target.build_stamp, Debian.Target.clean,
        Debian.Target.install, Debian.Target.binary_indep,
        Debian.Target.binary_arch] ∧
      (Debian.Env.mk false true true).rightDir = false ∧
      ((Debian.make ⟨false, true, true⟩ ⟨false, false, false, false⟩
          Debian.Target.install).fs = (⟨false, false, false, false⟩ : Debian.FS) ∧
        ((⟨false, false, false, false⟩ : Debian.FS).buildStamp = false →
          (Debian.make ⟨false, true, true⟩ ⟨false, false, false, false⟩
              Debian.Target.install).ok = false ∧
            (Debian.make ⟨false, true, true⟩ ⟨false, false, false, false⟩
                Debian.Target.install).tr = [Debian.DCmd.dh_testdir])) :=
  ⟨by decide, by decide,
    C10_testdir_guards_targets.2.2 Debian.Target.install (by decide)
      ⟨false, true, true⟩ ⟨false, false, false, false⟩ (by decide)⟩

/-- C5 counterexample: the claim that every command listed in the install,
script, and after_success sequences executes unconditionally is false: the
coveralls command is listed in the after_success sequence, yet the 2.6 build
never executes it, because the sequence's single entry is the conditional
`if [[ $TRAVIS_PYTHON_VERSION == 2.7 ]]; then coveralls; fi`. -/
theorem C5_counterexample :
    "coveralls" ∈ Travis.after_success.map Travis.listedCmd ∧
      "coveralls" ∉ Travis.pipeline "2.6" := by
  decide

/-- C5 amended: every command listed in the install and script sequences and
in every recipe of the packaging script executes unconditionally (on a fresh
tree with all tools succeeding, make binary runs every recipe command of the
targets it makes, and make clean runs every command of the clean recipe);
the single after_success entry, however, is a conditional that executes
coveralls exactly when the build's Python version equals 2.7. -/
theorem C5_amended_unconditional_pipelines :
    (∀ v : String, ∀ c ∈ Travis.install ++ Travis.script, c ∈ Travis.pipeline v) ∧
      (∀ v : String,
        Travis.runAfterSuccess v = if v = "2.7" then ["coveralls"] else []) ∧
      (Debian.make ⟨true, true, true⟩ ⟨false, false, false, false⟩
          Debian.Target.binary).tr =
        (Debian.recipe Debian.Target.build_stamp).map Prod.fst ++
          (Debian.recipe Debian.Target.install).map Prod.fst ++
          (Debian.recipe Debian.Target.binary_indep).map Prod.fst ++
          (Debian.recipe Debian.Target.binary_arch).map Prod.fst ∧
      (Debian.make ⟨true, true, true⟩ ⟨false, false, false, false⟩
          Debian.Target.clean).tr =
        (Debian.recipe Debian.Target.clean).map Prod.fst := by
  refine ⟨?_, ?_, by decide, by decide⟩
  · intro v c hc
    exact List.mem_append_left _ hc
  · intro v
    by_cases h : v = "2.7" <;>
      simp [Travis.runAfterSuccess, Travis.after_success, Travis.execShCmd,
        Travis.envOf, h]

/-- C5 amended witness: `make check` is listed in the script sequence and is
executed by the 3.5 build. -/
theorem C5_amended_witness :
    "make check" ∈ Travis.install ++ Travis.script ∧
      "make check" ∈ Travis.pipeline "3.5" :=
  ⟨by decide,
    C5_amended_unconditional_pipelines.1 "3.5" "make check" (by decide)⟩

/-- C6 counterexample: the claim that a failing command always aborts the
remaining commands of its sequence is false for the clean recipe: in an
environment where the bytecode-removal pipeline fails, dh_clean (the command
after it) is still executed. -/
theorem C6_counterexample :
    Debian.cmdOk ⟨true, true, false⟩ Debian.DCmd.find_rm_pyc = false ∧
      Debian.DCmd.dh_clean ∈
        (Debian.make ⟨true, true, false⟩ ⟨true, true, true, true⟩
          Debian.Target.clean).tr := by
  decide

/-- C6 amended: whenever an invoked command fails, the remaining commands of
its sequence are not executed — in a make recipe a failing command aborts
the recipe, and in a CI command sequence a failing command aborts the
sequence — with the single exception of the bytecode-removal pipeline in the
clean recipe, the only recipe line carrying make's `-` ignore-errors flag,
whose failure is ignored. -/
theorem C6_amended_failure_aborts_sequence :
    (∀ env : Debian.Env, ∀ fs : Debian.FS, ∀ c : Debian.DCmd,
      ∀ rest : List (Debian.DCmd × Bool),
        Debian.cmdOk env c = false →
          Debian.runRecipe env fs ((c, false) :: rest) = ⟨false, fs, [c]⟩) ∧
      (∀ t ∈ Debian.allTargets, ∀ p ∈ Debian.recipe t,
        p.2 = true → t = Debian.Target.clean ∧ p.1 = Debian.DCmd.find_rm_pyc) ∧
      ∀ fails : String → Bool, ∀ c : String, ∀ rest : List String,
        fails c = true → Travis.runSeq fails (c :: rest) = (false, [c]) := by
  refine ⟨?_, by decide, ?_⟩
  · intro env fs c rest h
    simp [Debian.runRecipe, h]
  · intro fails c rest h
    simp [Travis.runSeq, h]

/-- C6 amended witness: a failing dh_testdir at the head of a recipe aborts
the rest of the recipe. -/
theorem C6_amended_witness :
    Debian.cmdOk ⟨false, true, true⟩ Debian.DCmd.dh_testdir = false ∧
      Debian.runRecipe ⟨false, true, true⟩ ⟨false, false, false, false⟩
          ((Debian.DCmd.dh_testdir, false) :: [(Debian.DCmd.dh_testroot, false)]) =
        ⟨false, ⟨false, false, false, false⟩, [Debian.DCmd.dh_testdir]⟩ :=
  ⟨by decide,
    C6_amended_failure_aborts_sequence.1 ⟨false, true, true⟩
      ⟨false, false, false, false⟩ Debian.DCmd.dh_testdir
      [(Debian.DCmd.dh_testroot, false)] (by decide)⟩
